import Mathlib

/-!
# StreamLumo shared frame buffer — verification development

Shallow embedding of the StreamLumo OBS plugin's shared-memory frame
transport and producer-side format normalizer, translated from:

* `include/shared_buffer.h`   — region layout, index helpers
* `src/shm_posix.cpp`         — POSIX backend (`ShmPosix`)
* `src/shm_win32.cpp`         — Windows backend (`ShmWin32`)
* `src/frame_writer.cpp`      — producer driver (`FrameWriter`)

Modelling conventions:

* Machine integers (`uint64_t`, `uint32_t`, `int`, `uint8_t`) are
  modelled as `Nat`.  Counter increments done by `fetch_add` on a
  64-bit atomic are taken modulo `2 ^ 64` (`UINT64_MOD`), exactly as
  the hardware wraps.  Index arithmetic `(i + 1) % 3` and
  `(i - 1 + 3) % 3` is rewritten without subtraction below an index
  (e.g. `(i + 3 - 1) % 3`) so that `Nat` truncated subtraction agrees
  with the C `uint64_t` computation on all reachable states
  (indices `< 3`).
* A byte buffer is a total function `Nat → Nat` from byte offset to
  byte value; a `memcpy` of `n` bytes becomes a pointwise overwrite of
  offsets `< n`.
* A C plane pointer is modelled as a presence flag (null test) plus a
  flat byte-content function; no theorem relies on the contents of an
  absent plane (dereferencing a null pointer is undefined behaviour in
  the source).
* Atomic loads/stores become plain reads/writes of the state record:
  every claim is about a single call observed in isolation, matching
  the single-producer / single-consumer contract.
* Logging (`blog`, `std::cerr`) and the advisory semaphore have no
  observable effect on the shared region and are omitted.
-/

/-- `FRAME_WIDTH` from `shared_buffer.h`. -/
def FRAME_WIDTH : Nat := 1920

/-- `FRAME_HEIGHT` from `shared_buffer.h`. -/
def FRAME_HEIGHT : Nat := 1080

/-- `FRAME_CHANNELS` from `shared_buffer.h` (RGBA). -/
def FRAME_CHANNELS : Nat := 4

/-- `FRAME_SIZE = FRAME_WIDTH * FRAME_HEIGHT * FRAME_CHANNELS`. -/
def FRAME_SIZE : Nat := FRAME_WIDTH * FRAME_HEIGHT * FRAME_CHANNELS

/-- `NUM_BUFFERS` from `shared_buffer.h` (triple buffering). -/
def NUM_BUFFERS : Nat := 3

/-- Modulus of 64-bit unsigned arithmetic. -/
def UINT64_MOD : Nat := 2 ^ 64

/-- The `SharedFrameBuffer` struct of `shared_buffer.h`: control
metadata plus the triple-buffered frame data.  `frames` maps a slot
index and a byte offset to the byte stored there. -/
structure SharedFrameBuffer where
  write_index : Nat
  read_index : Nat
  width : Nat
  height : Nat
  frame_size : Nat
  format : Nat
  frame_counter : Nat
  dropped_frames : Nat
  last_write_timestamp_ns : Nat
  pause_requested : Nat
  producer_paused : Nat
  frames : Nat → Nat → Nat

namespace StreamLumo

/-- `StreamLumo::nextBufferIndex` from `shared_buffer.h`:
`(current + 1) % NUM_BUFFERS`. -/
def nextBufferIndex (current : Nat) : Nat :=
  (current + 1) % NUM_BUFFERS

/-- `StreamLumo::bufferDistance` from `shared_buffer.h`:
`(writeIdx - readIdx + NUM_BUFFERS) % NUM_BUFFERS` on `uint64_t`.
Written as `(writeIdx + NUM_BUFFERS - readIdx) % NUM_BUFFERS` so that
`Nat` subtraction does not truncate; for indices `< NUM_BUFFERS` (all
reachable states) this equals the C wrapping computation. -/
def bufferDistance (writeIdx readIdx : Nat) : Nat :=
  (writeIdx + NUM_BUFFERS - readIdx) % NUM_BUFFERS

/-- `StreamLumo::shouldDropFrames` from `shared_buffer.h`:
consumer more than one buffer behind. -/
def shouldDropFrames (writeIdx readIdx : Nat) : Bool :=
  bufferDistance writeIdx readIdx > 1

/-- `StreamLumo::getLatestFrameIndex` from `shared_buffer.h`:
`(writeIdx - 1 + NUM_BUFFERS) % NUM_BUFFERS` on `uint64_t`, written
subtraction-last for `Nat` (agrees with the C computation for every
`writeIdx`, since the wraps of `uint64_t` cancel). -/
def getLatestFrameIndex (writeIdx : Nat) : Nat :=
  (writeIdx + NUM_BUFFERS - 1) % NUM_BUFFERS

/-- `memcpy` of `n` bytes from `src` into slot `slot` of the `frames`
array, leaving every other slot and every byte at offset `≥ n`
unchanged. -/
def copyIntoSlot (frames : Nat → Nat → Nat) (slot : Nat)
    (src : Nat → Nat) (n : Nat) : Nat → Nat → Nat :=
  fun s i => if s = slot ∧ i < n then src i else frames s i

/-- `memcpy` of `n` bytes from slot `slot` into the caller's buffer
`buf`. -/
def copyFromSlot (buf : Nat → Nat) (frames : Nat → Nat → Nat)
    (slot : Nat) (n : Nat) : Nat → Nat :=
  fun i => if i < n then frames slot i else buf i

/-- `ShmPosix::writeFrame` from `shm_posix.cpp`.  `connected` models
`m_shm_ptr != nullptr`.  Returns the C return value and the region
afterwards.  Faithful points: the size guard rejects only
`dataSize > FRAME_SIZE`; the data is copied into slot
`(W + 1) % NUM_BUFFERS` and the write is dropped entirely (with
`dropped_frames` bumped) when that slot equals `read_index`; no store
to `last_write_timestamp_ns` occurs anywhere in the function. -/
def posixWriteFrame (connected : Bool) (s : SharedFrameBuffer)
    (frameData : Nat → Nat) (dataSize : Nat) : Bool × SharedFrameBuffer :=
  if !connected then (false, s)
  else if dataSize > FRAME_SIZE then (false, s)
  else
    let currentWriteIndex := s.write_index
    let nextWriteIndex := (currentWriteIndex + 1) % NUM_BUFFERS
    let currentReadIndex := s.read_index
    if nextWriteIndex = currentReadIndex then
      (false, { s with
        dropped_frames := (s.dropped_frames + 1) % UINT64_MOD })
    else
      let s1 := { s with
        frames := copyIntoSlot s.frames nextWriteIndex frameData dataSize }
      let s2 := { s1 with write_index := nextWriteIndex }
      let s3 := { s2 with
        frame_counter := (s2.frame_counter + 1) % UINT64_MOD }
      (true, s3)

/-- `ShmPosix::readFrame` from `shm_posix.cpp`.  Rejects a buffer of
capacity `< FRAME_SIZE`; returns "no new frame" when
`write_index == read_index`; otherwise copies `FRAME_SIZE` bytes from
slot `write_index` (the slot the POSIX writer most recently filled)
and stores `read_index := write_index`.  Returns the C return value,
the region afterwards, and the caller's buffer afterwards. -/
def posixReadFrame (connected : Bool) (s : SharedFrameBuffer)
    (buffer : Nat → Nat) (bufferSize : Nat) :
    Bool × SharedFrameBuffer × (Nat → Nat) :=
  if !connected then (false, s, buffer)
  else if bufferSize < FRAME_SIZE then (false, s, buffer)
  else
    let currentWriteIndex := s.write_index
    let currentReadIndex := s.read_index
    if currentWriteIndex = currentReadIndex then (false, s, buffer)
    else
      let out := copyFromSlot buffer s.frames currentWriteIndex FRAME_SIZE
      (true, { s with read_index := currentWriteIndex }, out)

/-- `ShmWin32::writeFrame` from `shm_win32.cpp`.  `now` models the
nanosecond reading of `std::chrono::high_resolution_clock` taken
during the call.  Rejects `dataSize != FRAME_SIZE`; bumps
`dropped_frames` (without rejecting) when `shouldDropFrames`; copies
the data into slot `write_index`; stores the timestamp; advances
`write_index` to `nextBufferIndex`; bumps `frame_counter`. -/
def win32WriteFrame (connected : Bool) (s : SharedFrameBuffer)
    (frameData : Nat → Nat) (dataSize : Nat) (now : Nat) :
    Bool × SharedFrameBuffer :=
  if !connected then (false, s)
  else if dataSize ≠ FRAME_SIZE then (false, s)
  else
    let currentWrite := s.write_index
    let currentRead := s.read_index
    let s1 :=
      if shouldDropFrames currentWrite currentRead then
        { s with dropped_frames := (s.dropped_frames + 1) % UINT64_MOD }
      else s
    let s2 := { s1 with
      frames := copyIntoSlot s1.frames currentWrite frameData dataSize }
    let s3 := { s2 with last_write_timestamp_ns := now % UINT64_MOD }
    let s4 := { s3 with write_index := nextBufferIndex currentWrite }
    let s5 := { s4 with
      frame_counter := (s4.frame_counter + 1) % UINT64_MOD }
    (true, s5)

/-- `ShmWin32::readFrame` from `shm_win32.cpp`.  Rejects a buffer of
capacity `< FRAME_SIZE`; returns "no new frame" when
`write_index == read_index`; otherwise copies `FRAME_SIZE` bytes from
slot `getLatestFrameIndex write_index` and stores
`read_index := write_index`. -/
def win32ReadFrame (connected : Bool) (s : SharedFrameBuffer)
    (buffer : Nat → Nat) (bufferSize : Nat) :
    Bool × SharedFrameBuffer × (Nat → Nat) :=
  if !connected then (false, s, buffer)
  else if bufferSize < FRAME_SIZE then (false, s, buffer)
  else
    let currentWrite := s.write_index
    let currentRead := s.read_index
    if currentWrite = currentRead then (false, s, buffer)
    else
      let readIdx := getLatestFrameIndex currentWrite
      let out := copyFromSlot buffer s.frames readIdx FRAME_SIZE
      (true, { s with read_index := currentWrite }, out)

/-- The OBS `video_format` tags that `FrameWriter::convertToRGBA`
dispatches on; `other` stands for every remaining tag, all handled by
the `default` arm of the `switch`. -/
inductive VideoFormat where
  | I420 | NV12 | UYVY | YUY2 | Y800 | RGBA | BGRA | other
deriving DecidableEq

/-- `clampToByte` from `frame_writer.cpp`:
`std::clamp(value, 0, 255)` cast to `uint8_t`. -/
def clampToByte (value : Int) : Nat :=
  (max 0 (min value 255)).toNat

/-- Models `static_cast<int>(e)` applied to a C floating-point
expression: truncation toward zero.  The float/double arithmetic of
the source is modelled as exact rational arithmetic; no verified
claim depends on a pixel value produced through this function. -/
def fptrunc (q : Rat) : Int :=
  q.num.tdiv (q.den : Int)

/-- `writeRgbaFromYuv` from `frame_writer.cpp`, as a function from the
RGBA channel index (0..3) to the byte written there.  The BT.601
constants `1.402`, `0.344136`, `0.714136`, `1.772` are modelled as
exact rationals.  The packed 4:2:2 branches (`UYVY`, `YUY2`) inline
the same formula with `double` constants; in this rational model the
two coincide, so they reuse this definition. -/
def writeRgbaFromYuv (y : Nat) (u v : Int) (c : Nat) : Nat :=
  let r : Int := fptrunc ((y : Rat) + 1.402 * (v : Rat))
  let g : Int := fptrunc ((y : Rat) - 0.344136 * (u : Rat) - 0.714136 * (v : Rat))
  let b : Int := fptrunc ((y : Rat) + 1.772 * (u : Rat))
  if c = 0 then clampToByte r
  else if c = 1 then clampToByte g
  else if c = 2 then clampToByte b
  else 255

/-- Models `(uint32_t)(x * scale)` where
`scale = (float)srcDim / dstDim`: the exact rational floor
`x * srcDim / dstDim`.  Exact with respect to the float source
whenever `srcDim = dstDim` (scale `1.0f`), the only case any verified
claim exercises. -/
def scaleIndex (x srcDim dstDim : Nat) : Nat :=
  x * srcDim / dstDim

/-- The `if (src >= dim) src = dim - 1;` clamp applied after scaling
in every branch of `convertToRGBA`. -/
def clampIndex (i dim : Nat) : Nat :=
  if i ≥ dim then dim - 1 else i

/-- Every conversion loop of `convertToRGBA` writes byte
`dst[y * FRAME_WIDTH * 4 + x * 4 + c]` for all
`y < FRAME_HEIGHT`, `x < FRAME_WIDTH`, `c < 4` — exactly the offsets
`< FRAME_SIZE`.  `pixelByte y x c` gives the byte the loop body
stores. -/
def overwriteFrameBytes (rgbaBuffer : Nat → Nat)
    (pixelByte : Nat → Nat → Nat → Nat) : Nat → Nat :=
  fun i =>
    if i < FRAME_SIZE then
      pixelByte (i / (FRAME_WIDTH * 4)) (i % (FRAME_WIDTH * 4) / 4) (i % 4)
    else rgbaBuffer i

/-- Loop body of the `I420`/`NV12` arm of `convertToRGBA`: the byte
stored at destination pixel `(x, y)`, channel `c`.  Plane 0 is Y,
plane 1 is U (or interleaved UV for NV12), plane 2 is V. -/
def yuv420PixelByte (isNV12 : Bool) (data : Nat → Nat → Nat)
    (y_linesize u_linesize v_linesize : Nat) (width height : Nat)
    (y x c : Nat) : Nat :=
  let src_y := clampIndex (scaleIndex y height FRAME_HEIGHT) height
  let src_x := clampIndex (scaleIndex x width FRAME_WIDTH) width
  let y_val := data 0 (src_y * y_linesize + src_x)
  if isNV12 then
    let chroma_offset0 := (src_x / 2) * 2
    let chroma_offset :=
      if chroma_offset0 + 1 ≥ u_linesize then
        if u_linesize ≥ 2 then u_linesize - 2 else 0
      else chroma_offset0
    let u_val : Int := (data 1 ((src_y / 2) * u_linesize + chroma_offset) : Int) - 128
    let v_val : Int := (data 1 ((src_y / 2) * u_linesize + chroma_offset + 1) : Int) - 128
    writeRgbaFromYuv y_val u_val v_val c
  else
    let chroma_x0 := src_x / 2
    let chroma_xu :=
      if chroma_x0 ≥ u_linesize then
        if u_linesize > 0 then u_linesize - 1 else 0
      else chroma_x0
    let u_val : Int := (data 1 ((src_y / 2) * u_linesize + chroma_xu) : Int) - 128
    let chroma_xv :=
      if chroma_xu ≥ v_linesize then
        if v_linesize > 0 then v_linesize - 1 else 0
      else chroma_xu
    let v_val : Int := (data 2 ((src_y / 2) * v_linesize + chroma_xv) : Int) - 128
    writeRgbaFromYuv y_val u_val v_val c

/-- The `I420`/`NV12` arm of `convertToRGBA`, including its two
abort checks (missing plane pointers; zero linesize), which `break`
out of the `switch` leaving the destination untouched. -/
def yuv420Branch (isNV12 : Bool) (present : Nat → Bool)
    (data : Nat → Nat → Nat) (linesize : Nat → Nat)
    (width height : Nat) (rgbaBuffer : Nat → Nat) : Nat → Nat :=
  if present 0 = false ∨ present 1 = false ∨
      (isNV12 = false ∧ present 2 = false) then rgbaBuffer
  else
    let y_linesize := linesize 0
    let u_linesize := linesize 1
    let v_linesize := if isNV12 then linesize 1 else linesize 2
    if y_linesize = 0 ∨ u_linesize = 0 ∨
        (isNV12 = false ∧ v_linesize = 0) then rgbaBuffer
    else
      overwriteFrameBytes rgbaBuffer
        (yuv420PixelByte isNV12 data y_linesize u_linesize v_linesize
          width height)

/-- Loop body of the `UYVY` arm (packed 4:2:2, byte order
`U0 Y0 V0 Y1`). -/
def uyvyPixelByte (data : Nat → Nat → Nat) (src_linesize : Nat)
    (width height : Nat) (y x c : Nat) : Nat :=
  let src_y := clampIndex (scaleIndex y height FRAME_HEIGHT) height
  let src_x := clampIndex (scaleIndex x width FRAME_WIDTH) width
  let row := src_y * src_linesize
  let block_idx := (src_x / 2) * 4
  let y_off := if src_x % 2 = 1 then 2 else 0
  let u : Int := (data 0 (row + block_idx) : Int) - 128
  let y_val := data 0 (row + block_idx + 1 + y_off)
  let v : Int := (data 0 (row + block_idx + 2) : Int) - 128
  writeRgbaFromYuv y_val u v c

/-- Loop body of the `YUY2` arm (packed 4:2:2, byte order
`Y0 U0 Y1 V0`). -/
def yuy2PixelByte (data : Nat → Nat → Nat) (src_linesize : Nat)
    (width height : Nat) (y x c : Nat) : Nat :=
  let src_y := clampIndex (scaleIndex y height FRAME_HEIGHT) height
  let src_x := clampIndex (scaleIndex x width FRAME_WIDTH) width
  let row := src_y * src_linesize
  let block_idx := (src_x / 2) * 4
  let y_off := if src_x % 2 = 1 then 2 else 0
  let y_val := data 0 (row + block_idx + y_off)
  let u : Int := (data 0 (row + block_idx + 1) : Int) - 128
  let v : Int := (data 0 (row + block_idx + 3) : Int) - 128
  writeRgbaFromYuv y_val u v c

/-- Loop body of the `Y800` arm (8-bit grayscale: luma replicated to
R, G, B; alpha 255). -/
def y800PixelByte (data : Nat → Nat → Nat) (src_linesize : Nat)
    (width height : Nat) (y x c : Nat) : Nat :=
  let src_y := clampIndex (scaleIndex y height FRAME_HEIGHT) height
  let src_x := clampIndex (scaleIndex x width FRAME_WIDTH) width
  let val := data 0 (src_y * src_linesize + src_x)
  if c < 3 then val else 255

/-- Loop body of the `RGBA` slow path (scaling / stride-aware copy). -/
def rgbaSlowPixelByte (data : Nat → Nat → Nat) (src_stride : Nat)
    (width height : Nat) (y x c : Nat) : Nat :=
  let src_y := clampIndex (scaleIndex y height FRAME_HEIGHT) height
  let src_x := clampIndex (scaleIndex x width FRAME_WIDTH) width
  data 0 (src_y * src_stride + src_x * 4 + c)

/-- The B↔R swizzle of the `BGRA` arm: destination channel `c` taken
from source pixel base offset `base`. -/
def bgraChannel (src : Nat → Nat) (base c : Nat) : Nat :=
  if c = 0 then src (base + 2)
  else if c = 1 then src (base + 1)
  else if c = 2 then src base
  else src (base + 3)

/-- Loop body of the `BGRA` size-matching path (row-by-row swizzle,
no scaling; the loops run over `height` rows and `width` columns,
which equal the canonical dimensions on this path). -/
def bgraMatchPixelByte (data : Nat → Nat → Nat) (src_stride : Nat)
    (y x c : Nat) : Nat :=
  bgraChannel (data 0) (y * src_stride + x * 4) c

/-- Loop body of the `BGRA` scaling path. -/
def bgraScalePixelByte (data : Nat → Nat → Nat) (src_stride : Nat)
    (width height : Nat) (y x c : Nat) : Nat :=
  let src_y := clampIndex (scaleIndex y height FRAME_HEIGHT) height
  let src_x := clampIndex (scaleIndex x width FRAME_WIDTH) width
  bgraChannel (data 0) (src_y * src_stride + src_x * 4) c

/-- Loop body of the `default` arm: fill with opaque red
`(255, 0, 0, 255)`. -/
def redFillPixelByte (_y _x c : Nat) : Nat :=
  if c = 0 then 255 else if c = 1 then 0 else if c = 2 then 0 else 255

/-- `FrameWriter::convertToRGBA` from `frame_writer.cpp`.  `present p`
models plane pointer `data[p]` being non-null, `data p` its byte
contents, `linesize p` the per-plane stride.  Returns the destination
buffer after the call (the function itself returns `void` and writes
through `rgbaBuffer`).  Logging is omitted.  No theorem relies on the
contents of a plane whose presence flag is `false` outside the
checked `I420`/`NV12` arm (in the source that would dereference a
null pointer). -/
def convertToRGBA (present : Nat → Bool) (data : Nat → Nat → Nat)
    (linesize : Nat → Nat) (width height : Nat) (format : VideoFormat)
    (rgbaBuffer : Nat → Nat) : Nat → Nat :=
  if width = 0 ∨ height = 0 then rgbaBuffer
  else
    match format with
    | VideoFormat.I420 =>
        yuv420Branch false present data linesize width height rgbaBuffer
    | VideoFormat.NV12 =>
        yuv420Branch true present data linesize width height rgbaBuffer
    | VideoFormat.UYVY =>
        overwriteFrameBytes rgbaBuffer
          (uyvyPixelByte data (linesize 0) width height)
    | VideoFormat.YUY2 =>
        overwriteFrameBytes rgbaBuffer
          (yuy2PixelByte data (linesize 0) width height)
    | VideoFormat.Y800 =>
        overwriteFrameBytes rgbaBuffer
          (y800PixelByte data (linesize 0) width height)
    | VideoFormat.RGBA =>
        if width = FRAME_WIDTH ∧ height = FRAME_HEIGHT ∧
            linesize 0 = FRAME_WIDTH * 4 then
          fun i => if i < FRAME_SIZE then data 0 i else rgbaBuffer i
        else
          overwriteFrameBytes rgbaBuffer
            (rgbaSlowPixelByte data (linesize 0) width height)
    | VideoFormat.BGRA =>
        if width = FRAME_WIDTH ∧ height = FRAME_HEIGHT then
          overwriteFrameBytes rgbaBuffer
            (bgraMatchPixelByte data (linesize 0))
        else
          overwriteFrameBytes rgbaBuffer
            (bgraScalePixelByte data (linesize 0) width height)
    | VideoFormat.other =>
        overwriteFrameBytes rgbaBuffer redFillPixelByte

/-- The per-channel counters and reusable conversion buffer of
`FrameWriter` (`m_totalFrames`, `m_droppedFrames`, `m_writtenFrames`,
`m_frameBuffer`; the buffer is sized `FRAME_SIZE` in the
constructor). -/
structure FrameWriterState where
  totalFrames : Nat
  droppedFrames : Nat
  writtenFrames : Nat
  frameBuffer : Nat → Nat

/-- `FrameWriter::processFrame` from `frame_writer.cpp`, with the
POSIX backend selected (the non-Windows build: `ShmImpl = ShmPosix`).
Bumps the total counter, converts into the reusable buffer, calls
`writeFrame(m_frameBuffer.data(), m_frameBuffer.size())` — the size
is always `FRAME_SIZE` — and bumps the written or dropped counter by
the boolean result.  Statistics logging is omitted. -/
def processFramePosix (w : FrameWriterState) (shm : SharedFrameBuffer)
    (connected : Bool) (present : Nat → Bool) (data : Nat → Nat → Nat)
    (linesize : Nat → Nat) (width height : Nat) (format : VideoFormat) :
    FrameWriterState × SharedFrameBuffer :=
  let w1 := { w with totalFrames := (w.totalFrames + 1) % UINT64_MOD }
  let buf := convertToRGBA present data linesize width height format
    w1.frameBuffer
  let w2 := { w1 with frameBuffer := buf }
  let r := posixWriteFrame connected shm buf FRAME_SIZE
  if r.1 then
    ({ w2 with writtenFrames := (w2.writtenFrames + 1) % UINT64_MOD }, r.2)
  else
    ({ w2 with droppedFrames := (w2.droppedFrames + 1) % UINT64_MOD }, r.2)

/-- `FrameWriter::processFrame` with the Windows backend selected
(`ShmImpl = ShmWin32`); `now` is the clock reading taken inside
`ShmWin32::writeFrame`. -/
def processFrameWin32 (w : FrameWriterState) (shm : SharedFrameBuffer)
    (connected : Bool) (present : Nat → Bool) (data : Nat → Nat → Nat)
    (linesize : Nat → Nat) (width height : Nat) (format : VideoFormat)
    (now : Nat) : FrameWriterState × SharedFrameBuffer :=
  let w1 := { w with totalFrames := (w.totalFrames + 1) % UINT64_MOD }
  let buf := convertToRGBA present data linesize width height format
    w1.frameBuffer
  let w2 := { w1 with frameBuffer := buf }
  let r := win32WriteFrame connected shm buf FRAME_SIZE now
  if r.1 then
    ({ w2 with writtenFrames := (w2.writtenFrames + 1) % UINT64_MOD }, r.2)
  else
    ({ w2 with droppedFrames := (w2.droppedFrames + 1) % UINT64_MOD }, r.2)

/-- One call against the shared region, by either backend (the
`connected` guard is taken to pass: a disconnected call returns
without touching the region).  The consumer's destination buffer does
not influence the region, so reads carry only the capacity. -/
inductive ShmOp where
  | posixWrite (frameData : Nat → Nat) (dataSize : Nat)
  | posixRead (bufferSize : Nat)
  | win32Write (frameData : Nat → Nat) (dataSize : Nat) (now : Nat)
  | win32Read (bufferSize : Nat)

/-- The region after one `ShmOp`. -/
def applyShmOp (s : SharedFrameBuffer) (op : ShmOp) : SharedFrameBuffer :=
  match op with
  | ShmOp.posixWrite d n => (posixWriteFrame true s d n).2
  | ShmOp.posixRead n => (posixReadFrame true s (fun _ => 0) n).2.1
  | ShmOp.win32Write d n t => (win32WriteFrame true s d n t).2
  | ShmOp.win32Read n => (win32ReadFrame true s (fun _ => 0) n).2.1

/-- The region after a sequence of calls. -/
def applyShmOps (s : SharedFrameBuffer) (ops : List ShmOp) :
    SharedFrameBuffer :=
  ops.foldl applyShmOp s

/-- The region as left by first-creator initialization
(`ShmPosix::create` / `ShmWin32::create`): zeroed indices, counters,
timestamp, flags, and (as a fresh zero-filled mapping) zeroed frame
bytes. -/
def initRegion : SharedFrameBuffer where
  write_index := 0
  read_index := 0
  width := FRAME_WIDTH
  height := FRAME_HEIGHT
  frame_size := FRAME_SIZE
  format := 0
  frame_counter := 0
  dropped_frames := 0
  last_write_timestamp_ns := 0
  pause_requested := 0
  producer_paused := 0
  frames := fun _ _ => 0

/-- An initialized region with chosen indices (used to evaluate the
operations at concrete states). -/
def regionWR (w r : Nat) : SharedFrameBuffer :=
  { initRegion with write_index := w, read_index := r }

/-- An initialized region with `write_index = 1` whose slot 1 holds
bytes of value 7 and whose other slots hold bytes of value 5. -/
def regionSlotMark : SharedFrameBuffer :=
  { initRegion with
    write_index := 1
    frames := fun sl _ => if sl = 1 then 7 else 5 }

/-- `FrameWriter::clearPauseState` from `frame_writer.cpp`.
`connected` folds the three guards `m_shm != nullptr`,
`m_shm->isConnected()` and `getBuffer() != nullptr` (all of which
mean: a region is mapped).  When connected, stores 0 into both pause
flags; otherwise returns with no effect. -/
def clearPauseState (connected : Bool) (s : SharedFrameBuffer) :
    SharedFrameBuffer :=
  if connected then
    { s with pause_requested := 0, producer_paused := 0 }
  else s

/-! ## Helper lemmas -/

/-- For in-range indices, the code's drop test agrees with the
mathematical lag `(W − R) mod N > 1`. -/
theorem shouldDropFrames_iff_int_lag (w r : Nat)
    (hw : w < NUM_BUFFERS) (hr : r < NUM_BUFFERS) :
    shouldDropFrames w r = true ↔
      1 < ((w : Int) - (r : Int)) % (NUM_BUFFERS : Int) := by
  simp only [NUM_BUFFERS] at hw hr
  interval_cases w <;> interval_cases r <;> decide

/-- Advancing a ring index always moves it. -/
theorem succ_mod_numBuffers_ne (w : Nat) (hw : w < NUM_BUFFERS) :
    (w + 1) % NUM_BUFFERS ≠ w := by
  simp only [NUM_BUFFERS] at hw ⊢
  interval_cases w <;> decide

/-- `convertToRGBA` returns with the destination untouched when the
source has a zero dimension (the guard at the top of the function). -/
theorem convertToRGBA_zero_dims (pr : Nat → Bool) (d : Nat → Nat → Nat)
    (ls : Nat → Nat) (w h : Nat) (fmt : VideoFormat) (buf : Nat → Nat)
    (hz : w = 0 ∨ h = 0) :
    convertToRGBA pr d ls w h fmt buf = buf := by
  unfold convertToRGBA
  rw [if_pos hz]

/-- Closed form of `ShmWin32::writeFrame` on a connected channel with
a frame-sized input: never rejected; the drop test only bumps the
counter. -/
theorem win32WriteFrame_eq (s : SharedFrameBuffer) (d : Nat → Nat)
    (now : Nat) :
    win32WriteFrame true s d FRAME_SIZE now =
      (true,
        { s with
          dropped_frames :=
            if shouldDropFrames s.write_index s.read_index
            then (s.dropped_frames + 1) % UINT64_MOD else s.dropped_frames
          frames := copyIntoSlot s.frames s.write_index d FRAME_SIZE
          last_write_timestamp_ns := now % UINT64_MOD
          write_index := nextBufferIndex s.write_index
          frame_counter := (s.frame_counter + 1) % UINT64_MOD }) := by
  unfold win32WriteFrame
  dsimp only
  rw [if_neg (by simp), if_neg (by simp)]
  split <;> rfl

/-- Closed form of `ShmPosix::writeFrame` on an accepted call: size
guard passed and the next slot is not the consumer's. -/
theorem posixWriteFrame_accept_eq (s : SharedFrameBuffer)
    (d : Nat → Nat) (n : Nat) (hn : n ≤ FRAME_SIZE)
    (hacc : (s.write_index + 1) % NUM_BUFFERS ≠ s.read_index) :
    posixWriteFrame true s d n =
      (true,
        { s with
          frames := copyIntoSlot s.frames ((s.write_index + 1) % NUM_BUFFERS) d n
          write_index := (s.write_index + 1) % NUM_BUFFERS
          frame_counter := (s.frame_counter + 1) % UINT64_MOD }) := by
  unfold posixWriteFrame
  dsimp only
  rw [if_neg (by simp), if_neg (by omega), if_neg hacc]

/-! ## Theorems for the claims -/

/-- C9: for every call to `readFrame` on a connected channel, whether
it returns true or false, the only field of the shared region that
may change is `read_index`: the frames array, `write_index`,
`frame_counter`, `dropped_frames`, `last_write_timestamp_ns`, and
both pause flags are unchanged by the call, on both the POSIX and the
Windows backend. -/
theorem readFrame_changes_only_read_index :
    ∀ (connected : Bool) (s : SharedFrameBuffer) (buffer : Nat → Nat)
      (bufferSize : Nat),
      ((posixReadFrame connected s buffer bufferSize).2.1.frames = s.frames ∧
       (posixReadFrame connected s buffer bufferSize).2.1.write_index = s.write_index ∧
       (posixReadFrame connected s buffer bufferSize).2.1.frame_counter = s.frame_counter ∧
       (posixReadFrame connected s buffer bufferSize).2.1.dropped_frames = s.dropped_frames ∧
       (posixReadFrame connected s buffer bufferSize).2.1.last_write_timestamp_ns = s.last_write_timestamp_ns ∧
       (posixReadFrame connected s buffer bufferSize).2.1.pause_requested = s.pause_requested ∧
       (posixReadFrame connected s buffer bufferSize).2.1.producer_paused = s.producer_paused) ∧
      ((win32ReadFrame connected s buffer bufferSize).2.1.frames = s.frames ∧
       (win32ReadFrame connected s buffer bufferSize).2.1.write_index = s.write_index ∧
       (win32ReadFrame connected s buffer bufferSize).2.1.frame_counter = s.frame_counter ∧
       (win32ReadFrame connected s buffer bufferSize).2.1.dropped_frames = s.dropped_frames ∧
       (win32ReadFrame connected s buffer bufferSize).2.1.last_write_timestamp_ns = s.last_write_timestamp_ns ∧
       (win32ReadFrame connected s buffer bufferSize).2.1.pause_requested = s.pause_requested ∧
       (win32ReadFrame connected s buffer bufferSize).2.1.producer_paused = s.producer_paused) := by
  intro connected s buffer bufferSize
  refine ⟨?_, ?_⟩
  · unfold posixReadFrame
    dsimp only
    repeat' split
    all_goals exact ⟨rfl, rfl, rfl, rfl, rfl, rfl, rfl⟩
  · unfold win32ReadFrame
    dsimp only
    repeat' split
    all_goals exact ⟨rfl, rfl, rfl, rfl, rfl, rfl, rfl⟩

/-- C10: `clearPauseState` on a connected channel stores 0 into both
`pause_requested` and `producer_paused` and changes no other field of
the region; on a channel that is not connected it changes nothing;
the call is idempotent (so a producer-side call can cancel a pause
request the producer never acknowledged, whatever the prior flag
values). -/
theorem clearPauseState_effect :
    ∀ (c : Bool) (s : SharedFrameBuffer),
      (clearPauseState true s).pause_requested = 0 ∧
      (clearPauseState true s).producer_paused = 0 ∧
      (clearPauseState true s).write_index = s.write_index ∧
      (clearPauseState true s).read_index = s.read_index ∧
      (clearPauseState true s).width = s.width ∧
      (clearPauseState true s).height = s.height ∧
      (clearPauseState true s).frame_size = s.frame_size ∧
      (clearPauseState true s).format = s.format ∧
      (clearPauseState true s).frame_counter = s.frame_counter ∧
      (clearPauseState true s).dropped_frames = s.dropped_frames ∧
      (clearPauseState true s).last_write_timestamp_ns = s.last_write_timestamp_ns ∧
      (clearPauseState true s).frames = s.frames ∧
      clearPauseState false s = s ∧
      clearPauseState c (clearPauseState c s) = clearPauseState c s := by
  intro c s
  cases c <;> simp [clearPauseState]

/-- C5 (refuted by the POSIX backend): `ShmPosix::writeFrame` never
stores to `last_write_timestamp_ns` — the field is left unchanged by
every call, including accepted writes (shown at an accepted write on
an initialized region, where it stays 0 rather than the wall clock of
the write). -/
theorem posixWriteFrame_ignores_timestamp :
    (∀ (connected : Bool) (s : SharedFrameBuffer) (d : Nat → Nat) (n : Nat),
      (posixWriteFrame connected s d n).2.last_write_timestamp_ns
        = s.last_write_timestamp_ns) ∧
    (posixWriteFrame true initRegion (fun _ => 7) FRAME_SIZE).1 = true ∧
    (posixWriteFrame true initRegion (fun _ => 7) FRAME_SIZE).2.last_write_timestamp_ns = 0 := by
  refine ⟨?_, by decide, by decide⟩
  intro connected s d n
  unfold posixWriteFrame
  dsimp only
  repeat' split
  all_goals rfl

/-- C4: on the POSIX backend, whenever `(W + 1) mod N = R` for the
indices observed at the start of `writeFrame` (a call that passes the
size guard, `len ≤ FRAME_SIZE`), the call increments `dropped_frames`
by exactly 1 (as a 64-bit counter), returns false, and leaves
`write_index`, `read_index`, `frame_counter` and every frames slot
unchanged. -/
theorem posixWriteFrame_backpressure_drop
    (s : SharedFrameBuffer) (d : Nat → Nat) (n : Nat)
    (hn : n ≤ FRAME_SIZE)
    (hfull : (s.write_index + 1) % NUM_BUFFERS = s.read_index) :
    (posixWriteFrame true s d n).1 = false ∧
    (posixWriteFrame true s d n).2.dropped_frames
      = (s.dropped_frames + 1) % UINT64_MOD ∧
    (posixWriteFrame true s d n).2.write_index = s.write_index ∧
    (posixWriteFrame true s d n).2.read_index = s.read_index ∧
    (posixWriteFrame true s d n).2.frame_counter = s.frame_counter ∧
    (posixWriteFrame true s d n).2.frames = s.frames := by
  have h1 : ¬ n > FRAME_SIZE := by omega
  simp [posixWriteFrame, h1, hfull]

/-- Witness for C4 at `W = 0`, `R = 1`, `len = 0`. -/
theorem posixWriteFrame_backpressure_drop_witness :
    ((0 : Nat) ≤ FRAME_SIZE ∧
      ((regionWR 0 1).write_index + 1) % NUM_BUFFERS = (regionWR 0 1).read_index) ∧
    ((posixWriteFrame true (regionWR 0 1) (fun _ => 0) 0).1 = false ∧
     (posixWriteFrame true (regionWR 0 1) (fun _ => 0) 0).2.dropped_frames
       = ((regionWR 0 1).dropped_frames + 1) % UINT64_MOD ∧
     (posixWriteFrame true (regionWR 0 1) (fun _ => 0) 0).2.write_index = (regionWR 0 1).write_index ∧
     (posixWriteFrame true (regionWR 0 1) (fun _ => 0) 0).2.read_index = (regionWR 0 1).read_index ∧
     (posixWriteFrame true (regionWR 0 1) (fun _ => 0) 0).2.frame_counter = (regionWR 0 1).frame_counter ∧
     (posixWriteFrame true (regionWR 0 1) (fun _ => 0) 0).2.frames = (regionWR 0 1).frames) :=
  ⟨⟨by decide, by decide⟩,
    posixWriteFrame_backpressure_drop (regionWR 0 1) (fun _ => 0) 0
      (by decide) (by decide)⟩

/-- C3 counterexample: on the POSIX backend a `writeFrame` of length
0 (≠ `frame_size`) is accepted — it returns true and bumps
`frame_counter` — because the size guard rejects only lengths greater
than `FRAME_SIZE`. -/
theorem posixWriteFrame_accepts_short_length :
    (0 : Nat) ≠ FRAME_SIZE ∧
    (posixWriteFrame true initRegion (fun _ => 0) 0).1 = true ∧
    (posixWriteFrame true initRegion (fun _ => 0) 0).2.frame_counter = 1 ∧
    initRegion.frame_counter = 0 := by
  decide

/-- C3 (amended): on the Windows backend any `len ≠ frame_size` is
rejected with the region unchanged; on the POSIX backend only
`len > frame_size` is rejected with the region unchanged, while a
shorter length passes the size guard — a call with
`(W + 1) mod N ≠ R` is accepted and copies only `len` bytes into the
slot. -/
theorem writeFrame_size_validation :
    (∀ (s : SharedFrameBuffer) (d : Nat → Nat) (n now : Nat),
      n ≠ FRAME_SIZE → win32WriteFrame true s d n now = (false, s)) ∧
    (∀ (s : SharedFrameBuffer) (d : Nat → Nat) (n : Nat),
      n > FRAME_SIZE → posixWriteFrame true s d n = (false, s)) ∧
    (∀ (s : SharedFrameBuffer) (d : Nat → Nat) (n : Nat),
      n ≤ FRAME_SIZE → (s.write_index + 1) % NUM_BUFFERS ≠ s.read_index →
      (posixWriteFrame true s d n).1 = true ∧
      (posixWriteFrame true s d n).2.frames
        = copyIntoSlot s.frames ((s.write_index + 1) % NUM_BUFFERS) d n) := by
  refine ⟨?_, ?_, ?_⟩
  · intro s d n now h
    simp [win32WriteFrame, h]
  · intro s d n h
    simp [posixWriteFrame, h]
  · intro s d n h hacc
    have h1 : ¬ n > FRAME_SIZE := by omega
    simp [posixWriteFrame, h1, hacc]

/-- Witness for C3's amended statement: the Windows backend rejects a
zero-length write and leaves the region unchanged. -/
theorem writeFrame_size_validation_witness :
    (0 : Nat) ≠ FRAME_SIZE ∧
    win32WriteFrame true initRegion (fun _ => 0) 0 5 = (false, initRegion) :=
  ⟨by decide, writeFrame_size_validation.1 initRegion (fun _ => 0) 0 5 (by decide)⟩

/-- C1 counterexample: on the POSIX backend, with `W = 1` and
`R = 0`, the byte copied out comes from slot `W = 1` (value 7), not
from slot `(W − 1) mod N = 0` (value 5). -/
theorem posixReadFrame_copies_slot_W :
    (posixReadFrame true regionSlotMark (fun _ => 42) FRAME_SIZE).1 = true ∧
    (posixReadFrame true regionSlotMark (fun _ => 42) FRAME_SIZE).2.2 0 = 7 ∧
    regionSlotMark.frames
      (getLatestFrameIndex regionSlotMark.write_index) 0 = 5 := by
  decide

/-- C1 (amended): on a connected channel with `cap ≥ frame_size` and
`W ≠ R`, `readFrame` returns true and afterwards `read_index = W` on
both backends; the bytes copied into the caller's buffer are the
`FRAME_SIZE` bytes of slot `(W − 1 + N) mod N` on the Windows
backend, but of slot `W` on the POSIX backend (the slot the POSIX
writer most recently completed, under its convention of copying into
`(W + 1) mod N` before publishing). -/
theorem readFrame_slot_selection
    (s : SharedFrameBuffer) (buffer : Nat → Nat) (cap : Nat)
    (hcap : FRAME_SIZE ≤ cap) (hne : s.write_index ≠ s.read_index) :
    ((win32ReadFrame true s buffer cap).1 = true ∧
     (win32ReadFrame true s buffer cap).2.1.read_index = s.write_index ∧
     ∀ i, i < FRAME_SIZE →
       (win32ReadFrame true s buffer cap).2.2 i
         = s.frames (getLatestFrameIndex s.write_index) i) ∧
    ((posixReadFrame true s buffer cap).1 = true ∧
     (posixReadFrame true s buffer cap).2.1.read_index = s.write_index ∧
     ∀ i, i < FRAME_SIZE →
       (posixReadFrame true s buffer cap).2.2 i
         = s.frames s.write_index i) := by
  have hc : ¬ cap < FRAME_SIZE := by omega
  refine ⟨⟨?_, ?_, ?_⟩, ⟨?_, ?_, ?_⟩⟩
  · simp [win32ReadFrame, hc, hne]
  · simp [win32ReadFrame, hc, hne]
  · intro i hi
    simp [win32ReadFrame, hc, hne, copyFromSlot, hi]
  · simp [posixReadFrame, hc, hne]
  · simp [posixReadFrame, hc, hne]
  · intro i hi
    simp [posixReadFrame, hc, hne, copyFromSlot, hi]

/-- Witness for C1's amended statement at `W = 1`, `R = 0`,
`cap = FRAME_SIZE`. -/
theorem readFrame_slot_selection_witness :
    (FRAME_SIZE ≤ FRAME_SIZE ∧
      regionSlotMark.write_index ≠ regionSlotMark.read_index) ∧
    (((win32ReadFrame true regionSlotMark (fun _ => 42) FRAME_SIZE).1 = true ∧
      (win32ReadFrame true regionSlotMark (fun _ => 42) FRAME_SIZE).2.1.read_index
        = regionSlotMark.write_index ∧
      ∀ i, i < FRAME_SIZE →
        (win32ReadFrame true regionSlotMark (fun _ => 42) FRAME_SIZE).2.2 i
          = regionSlotMark.frames
              (getLatestFrameIndex regionSlotMark.write_index) i) ∧
     ((posixReadFrame true regionSlotMark (fun _ => 42) FRAME_SIZE).1 = true ∧
      (posixReadFrame true regionSlotMark (fun _ => 42) FRAME_SIZE).2.1.read_index
        = regionSlotMark.write_index ∧
      ∀ i, i < FRAME_SIZE →
        (posixReadFrame true regionSlotMark (fun _ => 42) FRAME_SIZE).2.2 i
          = regionSlotMark.frames regionSlotMark.write_index i)) :=
  ⟨⟨by decide, by decide⟩,
    readFrame_slot_selection regionSlotMark (fun _ => 42) FRAME_SIZE
      (by decide) (by decide)⟩

/-- C2 counterexample: on the POSIX backend, an accepted write of
`frame_size` bytes at `W = 0`, `R = 0` copies the input into slot
`(W + 1) mod N = 1`, leaving slot `W = 0` untouched — the input byte
9 lands at `frames[1][0]`, while `frames[0][0]` stays 0. -/
theorem posixWriteFrame_writes_next_slot :
    (posixWriteFrame true initRegion (fun _ => 9) FRAME_SIZE).1 = true ∧
    (posixWriteFrame true initRegion (fun _ => 9) FRAME_SIZE).2.frames
      initRegion.write_index 0 = 0 ∧
    (posixWriteFrame true initRegion (fun _ => 9) FRAME_SIZE).2.frames 1 0 = 9 := by
  decide

/-- C2 (amended): for a write of exactly `frame_size` bytes on a
connected channel with in-range indices: the Windows backend never
rejects — for every such state (including the lag-2 states where the
consumer trails by two slots) it copies the input into `frames[W]`,
sets `write_index = (W + 1) mod N`, bumps `frame_counter`, and bumps
`dropped_frames` exactly when `(W − R) mod N > 1`, without rejecting
the write; the POSIX backend, on a call it accepts (one with
`(W + 1) mod N ≠ R`), instead copies the input into
`frames[(W + 1) mod N]` (slot `W` keeps its bytes), sets
`write_index = (W + 1) mod N`, bumps `frame_counter`, and never
touches `dropped_frames`. -/
theorem writeFrame_accepted_effects :
    (∀ (s : SharedFrameBuffer) (d : Nat → Nat) (now : Nat),
      s.write_index < NUM_BUFFERS → s.read_index < NUM_BUFFERS →
      ((win32WriteFrame true s d FRAME_SIZE now).1 = true ∧
       (∀ i, i < FRAME_SIZE →
         (win32WriteFrame true s d FRAME_SIZE now).2.frames s.write_index i = d i) ∧
       (win32WriteFrame true s d FRAME_SIZE now).2.write_index
         = (s.write_index + 1) % NUM_BUFFERS ∧
       (win32WriteFrame true s d FRAME_SIZE now).2.frame_counter
         = (s.frame_counter + 1) % UINT64_MOD ∧
       (win32WriteFrame true s d FRAME_SIZE now).2.dropped_frames
         = (if 1 < ((s.write_index : Int) - (s.read_index : Int))
                  % (NUM_BUFFERS : Int)
            then (s.dropped_frames + 1) % UINT64_MOD
            else s.dropped_frames))) ∧
    (∀ (s : SharedFrameBuffer) (d : Nat → Nat),
      s.write_index < NUM_BUFFERS →
      (s.write_index + 1) % NUM_BUFFERS ≠ s.read_index →
      ((posixWriteFrame true s d FRAME_SIZE).1 = true ∧
       (∀ i, i < FRAME_SIZE →
         (posixWriteFrame true s d FRAME_SIZE).2.frames
           ((s.write_index + 1) % NUM_BUFFERS) i = d i) ∧
       (∀ i, (posixWriteFrame true s d FRAME_SIZE).2.frames s.write_index i
         = s.frames s.write_index i) ∧
       (posixWriteFrame true s d FRAME_SIZE).2.write_index
         = (s.write_index + 1) % NUM_BUFFERS ∧
       (posixWriteFrame true s d FRAME_SIZE).2.frame_counter
         = (s.frame_counter + 1) % UINT64_MOD ∧
       (posixWriteFrame true s d FRAME_SIZE).2.dropped_frames
         = s.dropped_frames)) := by
  constructor
  · intro s d now hw hr
    rw [win32WriteFrame_eq]
    refine ⟨rfl, ?_, rfl, rfl, ?_⟩
    · intro i hi
      simp [copyIntoSlot, hi]
    · by_cases hd : shouldDropFrames s.write_index s.read_index = true
      · rw [if_pos hd, if_pos ((shouldDropFrames_iff_int_lag _ _ hw hr).mp hd)]
      · have hd2 : ¬ 1 < ((s.write_index : Int) - (s.read_index : Int))
            % (NUM_BUFFERS : Int) :=
          fun h => hd ((shouldDropFrames_iff_int_lag _ _ hw hr).mpr h)
        rw [if_neg hd, if_neg hd2]
  · intro s d hw hacc
    have hne : s.write_index ≠ (s.write_index + 1) % NUM_BUFFERS :=
      (succ_mod_numBuffers_ne s.write_index hw).symm
    rw [posixWriteFrame_accept_eq s d FRAME_SIZE le_rfl hacc]
    refine ⟨rfl, ?_, ?_, rfl, rfl, rfl⟩
    · intro i hi
      simp [copyIntoSlot, hi]
    · intro i
      simp [copyIntoSlot, hne]

/-- Witness for C2's amended statement: the Windows half at the
lag-2 state `W = 0`, `R = 1` — where `(W − R) mod N = 2 > 1`, so the
drop branch actually fires and `dropped_frames` goes from 0 to 1
while the write is still accepted — and the POSIX half at the
accepted state `W = 0`, `R = 0`. -/
theorem writeFrame_accepted_effects_witness :
    ((regionWR 0 1).write_index < NUM_BUFFERS ∧
     (regionWR 0 1).read_index < NUM_BUFFERS ∧
     initRegion.write_index < NUM_BUFFERS ∧
     (initRegion.write_index + 1) % NUM_BUFFERS ≠ initRegion.read_index) ∧
    (1 : Int) < (((regionWR 0 1).write_index : Int)
      - ((regionWR 0 1).read_index : Int)) % (NUM_BUFFERS : Int) ∧
    (win32WriteFrame true (regionWR 0 1) (fun _ => 9) FRAME_SIZE 5).2.dropped_frames = 1 ∧
    (regionWR 0 1).dropped_frames = 0 ∧
    ((win32WriteFrame true (regionWR 0 1) (fun _ => 9) FRAME_SIZE 5).1 = true ∧
     (∀ i, i < FRAME_SIZE →
       (win32WriteFrame true (regionWR 0 1) (fun _ => 9) FRAME_SIZE 5).2.frames
         (regionWR 0 1).write_index i = (fun _ => 9 : Nat → Nat) i) ∧
     (win32WriteFrame true (regionWR 0 1) (fun _ => 9) FRAME_SIZE 5).2.write_index
       = ((regionWR 0 1).write_index + 1) % NUM_BUFFERS ∧
     (win32WriteFrame true (regionWR 0 1) (fun _ => 9) FRAME_SIZE 5).2.frame_counter
       = ((regionWR 0 1).frame_counter + 1) % UINT64_MOD ∧
     (win32WriteFrame true (regionWR 0 1) (fun _ => 9) FRAME_SIZE 5).2.dropped_frames
       = (if 1 < (((regionWR 0 1).write_index : Int)
              - ((regionWR 0 1).read_index : Int)) % (NUM_BUFFERS : Int)
          then ((regionWR 0 1).dropped_frames + 1) % UINT64_MOD
          else (regionWR 0 1).dropped_frames)) ∧
    ((posixWriteFrame true initRegion (fun _ => 9) FRAME_SIZE).1 = true ∧
     (∀ i, i < FRAME_SIZE →
       (posixWriteFrame true initRegion (fun _ => 9) FRAME_SIZE).2.frames
         ((initRegion.write_index + 1) % NUM_BUFFERS) i = (fun _ => 9 : Nat → Nat) i) ∧
     (∀ i, (posixWriteFrame true initRegion (fun _ => 9) FRAME_SIZE).2.frames
       initRegion.write_index i = initRegion.frames initRegion.write_index i) ∧
     (posixWriteFrame true initRegion (fun _ => 9) FRAME_SIZE).2.write_index
       = (initRegion.write_index + 1) % NUM_BUFFERS ∧
     (posixWriteFrame true initRegion (fun _ => 9) FRAME_SIZE).2.frame_counter
       = (initRegion.frame_counter + 1) % UINT64_MOD ∧
     (posixWriteFrame true initRegion (fun _ => 9) FRAME_SIZE).2.dropped_frames
       = initRegion.dropped_frames) :=
  ⟨⟨by decide, by decide, by decide, by decide⟩,
    by decide, by decide, by decide,
    writeFrame_accepted_effects.1 (regionWR 0 1) (fun _ => 9) 5
      (by decide) (by decide),
    writeFrame_accepted_effects.2 initRegion (fun _ => 9)
      (by decide) (by decide)⟩

/-- Each single backend call keeps both ring indices below 3
(helper for the reachability invariant). -/
theorem applyShmOp_preserves_indices (s : SharedFrameBuffer) (op : ShmOp)
    (h1 : s.write_index < 3) (h2 : s.read_index < 3) :
    (applyShmOp s op).write_index < 3 ∧ (applyShmOp s op).read_index < 3 := by
  have hmod : ∀ n : Nat, (n + 1) % NUM_BUFFERS < 3 := fun n =>
    Nat.mod_lt _ (by decide)
  cases op with
  | posixWrite d n =>
      unfold applyShmOp posixWriteFrame
      dsimp only
      repeat' split
      all_goals
        exact ⟨by first | exact hmod _ | assumption,
          by first | exact hmod _ | assumption⟩
  | posixRead n =>
      unfold applyShmOp posixReadFrame
      dsimp only
      repeat' split
      all_goals
        exact ⟨by assumption, by first | exact h1 | exact h2⟩
  | win32Write d n t =>
      unfold applyShmOp win32WriteFrame nextBufferIndex
      dsimp only
      repeat' split
      all_goals
        exact ⟨by first | exact hmod _ | assumption,
          by first | exact hmod _ | assumption⟩
  | win32Read n =>
      unfold applyShmOp win32ReadFrame
      dsimp only
      repeat' split
      all_goals
        exact ⟨by assumption, by first | exact h1 | exact h2⟩

/-- C6: starting from an initialized region with `write_index = 0`
and `read_index = 0`, every sequence of `writeFrame` and `readFrame`
calls — on either backend, in any interleaving — preserves
`0 ≤ write_index < 3` and `0 ≤ read_index < 3` (N = 3; the lower
bound is inherent to `Nat`). -/
theorem shm_indices_invariant (s0 : SharedFrameBuffer)
    (hw : s0.write_index = 0) (hr : s0.read_index = 0)
    (ops : List ShmOp) :
    (applyShmOps s0 ops).write_index < 3 ∧
    (applyShmOps s0 ops).read_index < 3 := by
  have main : ∀ (l : List ShmOp) (s : SharedFrameBuffer),
      s.write_index < 3 → s.read_index < 3 →
      (applyShmOps s l).write_index < 3 ∧
      (applyShmOps s l).read_index < 3 := by
    intro l
    induction l with
    | nil => intro s a b; exact ⟨a, b⟩
    | cons op rest ih =>
        intro s a b
        have step := applyShmOp_preserves_indices s op a b
        simpa [applyShmOps] using ih (applyShmOp s op) step.1 step.2
  exact main ops s0 (by omega) (by omega)

/-- Witness for C6 on an initialized region and a mixed sequence of
writes and reads on both backends. -/
theorem shm_indices_invariant_witness :
    (initRegion.write_index = 0 ∧ initRegion.read_index = 0) ∧
    ((applyShmOps initRegion
        [ShmOp.posixWrite (fun _ => 1) FRAME_SIZE,
         ShmOp.win32Write (fun _ => 2) FRAME_SIZE 5,
         ShmOp.posixRead FRAME_SIZE,
         ShmOp.win32Read FRAME_SIZE]).write_index < 3 ∧
     (applyShmOps initRegion
        [ShmOp.posixWrite (fun _ => 1) FRAME_SIZE,
         ShmOp.win32Write (fun _ => 2) FRAME_SIZE 5,
         ShmOp.posixRead FRAME_SIZE,
         ShmOp.win32Read FRAME_SIZE]).read_index < 3) :=
  ⟨⟨by decide, by decide⟩,
    shm_indices_invariant initRegion (by decide) (by decide)
      [ShmOp.posixWrite (fun _ => 1) FRAME_SIZE,
       ShmOp.win32Write (fun _ => 2) FRAME_SIZE 5,
       ShmOp.posixRead FRAME_SIZE,
       ShmOp.win32Read FRAME_SIZE]⟩

/-- C7 counterexample: a zero plane stride does not leave the
destination untouched — RGBA input at canonical size with
`linesize[0] = 0` takes the slow path and rewrites the destination
(byte 0 becomes the source's byte 9, not the prior 7); and the caller
does not count a failed conversion as dropped — `processFrame` on a
zero-dimension input (conversion aborts) still writes the stale
buffer to shared memory and counts the frame as written. -/
theorem convertToRGBA_zero_stride_touches_dest :
    (convertToRGBA (fun _ => true) (fun _ _ => 9) (fun _ => 0)
      FRAME_WIDTH FRAME_HEIGHT VideoFormat.RGBA (fun _ => 7)) 0 = 9 ∧
    (7 : Nat) ≠ 9 ∧
    (processFramePosix ⟨0, 0, 0, fun _ => 7⟩ initRegion true
      (fun _ => true) (fun _ _ => 9) (fun _ => 0) 0 0
      VideoFormat.RGBA).1.writtenFrames = 1 ∧
    (processFramePosix ⟨0, 0, 0, fun _ => 7⟩ initRegion true
      (fun _ => true) (fun _ _ => 9) (fun _ => 0) 0 0
      VideoFormat.RGBA).1.droppedFrames = 0 := by
  decide

/-- C7 (amended): the normalizer aborts with the destination
untouched when a source dimension is zero (any format) and, for the
planar YUV formats only, when a required plane pointer is missing or
a required plane stride is zero (I420 requires planes/strides 0, 1,
2; NV12 requires 0 and 1); packed formats are not guarded.  The
caller does not treat an aborted conversion as dropped: it writes the
(unchanged) conversion buffer to shared memory anyway and bumps the
written counter whenever that `writeFrame` succeeds, leaving the
dropped counter alone. -/
theorem convertToRGBA_abort_paths_and_caller :
    (∀ (pr : Nat → Bool) (d : Nat → Nat → Nat) (ls : Nat → Nat)
      (w h : Nat) (fmt : VideoFormat) (buf : Nat → Nat),
      w = 0 ∨ h = 0 → convertToRGBA pr d ls w h fmt buf = buf) ∧
    (∀ (pr : Nat → Bool) (d : Nat → Nat → Nat) (ls : Nat → Nat)
      (w h : Nat) (buf : Nat → Nat),
      pr 0 = false ∨ pr 1 = false ∨ pr 2 = false →
      convertToRGBA pr d ls w h VideoFormat.I420 buf = buf) ∧
    (∀ (pr : Nat → Bool) (d : Nat → Nat → Nat) (ls : Nat → Nat)
      (w h : Nat) (buf : Nat → Nat),
      pr 0 = false ∨ pr 1 = false →
      convertToRGBA pr d ls w h VideoFormat.NV12 buf = buf) ∧
    (∀ (pr : Nat → Bool) (d : Nat → Nat → Nat) (ls : Nat → Nat)
      (w h : Nat) (buf : Nat → Nat),
      ls 0 = 0 ∨ ls 1 = 0 ∨ ls 2 = 0 →
      convertToRGBA pr d ls w h VideoFormat.I420 buf = buf) ∧
    (∀ (pr : Nat → Bool) (d : Nat → Nat → Nat) (ls : Nat → Nat)
      (w h : Nat) (buf : Nat → Nat),
      ls 0 = 0 ∨ ls 1 = 0 →
      convertToRGBA pr d ls w h VideoFormat.NV12 buf = buf) ∧
    (∀ (wst : FrameWriterState) (shm : SharedFrameBuffer)
      (pr : Nat → Bool) (d : Nat → Nat → Nat) (ls : Nat → Nat)
      (fmt : VideoFormat),
      (posixWriteFrame true shm wst.frameBuffer FRAME_SIZE).1 = true →
      (processFramePosix wst shm true pr d ls 0 0 fmt).1.writtenFrames
        = (wst.writtenFrames + 1) % UINT64_MOD ∧
      (processFramePosix wst shm true pr d ls 0 0 fmt).1.droppedFrames
        = wst.droppedFrames ∧
      (processFramePosix wst shm true pr d ls 0 0 fmt).1.frameBuffer
        = wst.frameBuffer ∧
      (processFramePosix wst shm true pr d ls 0 0 fmt).2
        = (posixWriteFrame true shm wst.frameBuffer FRAME_SIZE).2) := by
  refine ⟨convertToRGBA_zero_dims, ?_, ?_, ?_, ?_, ?_⟩
  · intro pr d ls w h buf hmiss
    by_cases hz : w = 0 ∨ h = 0
    · exact convertToRGBA_zero_dims pr d ls w h _ buf hz
    · unfold convertToRGBA
      rw [if_neg hz]
      dsimp only
      unfold yuv420Branch
      rw [if_pos (by tauto)]
  · intro pr d ls w h buf hmiss
    by_cases hz : w = 0 ∨ h = 0
    · exact convertToRGBA_zero_dims pr d ls w h _ buf hz
    · unfold convertToRGBA
      rw [if_neg hz]
      dsimp only
      unfold yuv420Branch
      rw [if_pos (by tauto)]
  · intro pr d ls w h buf hls
    by_cases hz : w = 0 ∨ h = 0
    · exact convertToRGBA_zero_dims pr d ls w h _ buf hz
    · unfold convertToRGBA
      rw [if_neg hz]
      dsimp only
      unfold yuv420Branch
      split
      · rfl
      · dsimp only
        rw [if_pos (by tauto)]
  · intro pr d ls w h buf hls
    by_cases hz : w = 0 ∨ h = 0
    · exact convertToRGBA_zero_dims pr d ls w h _ buf hz
    · unfold convertToRGBA
      rw [if_neg hz]
      dsimp only
      unfold yuv420Branch
      split
      · rfl
      · dsimp only
        rw [if_pos (by tauto)]
  · intro wst shm pr d ls fmt hok
    unfold processFramePosix
    dsimp only
    rw [convertToRGBA_zero_dims pr d ls 0 0 fmt wst.frameBuffer (Or.inl rfl),
      if_pos hok]
    exact ⟨rfl, rfl, rfl, rfl⟩

/-- Witness for C7's amended statement: zero-dimension abort, a
missing U plane aborting I420, a zero UV stride aborting NV12, and
the caller counting an aborted conversion as written. -/
theorem convertToRGBA_abort_paths_and_caller_witness :
    ((0 : Nat) = 0 ∨ (5 : Nat) = 0) ∧
    convertToRGBA (fun _ => true) (fun _ _ => 3) (fun _ => 1) 0 5
      VideoFormat.Y800 (fun _ => 7) = (fun _ => (7 : Nat)) ∧
    ((fun p => p ≠ 1 : Nat → Bool) 1 = false ∨
      (fun p => p ≠ 1 : Nat → Bool) 1 = false ∨
      (fun p => p ≠ 1 : Nat → Bool) 2 = false) ∧
    convertToRGBA (fun p => p ≠ 1) (fun _ _ => 3) (fun _ => 1) 2 2
      VideoFormat.I420 (fun _ => 7) = (fun _ => (7 : Nat)) ∧
    ((fun p => if p = 1 then 0 else 4 : Nat → Nat) 0 = 0 ∨
      (fun p => if p = 1 then 0 else 4 : Nat → Nat) 1 = 0) ∧
    convertToRGBA (fun _ => true) (fun _ _ => 3)
      (fun p => if p = 1 then 0 else 4) 2 2 VideoFormat.NV12
      (fun _ => 7) = (fun _ => (7 : Nat)) ∧
    ((posixWriteFrame true initRegion
        (⟨0, 0, 0, fun _ => 7⟩ : FrameWriterState).frameBuffer
        FRAME_SIZE).1 = true ∧
     (processFramePosix ⟨0, 0, 0, fun _ => 7⟩ initRegion true
        (fun _ => true) (fun _ _ => 3) (fun _ => 1) 0 0
        VideoFormat.Y800).1.writtenFrames
       = ((⟨0, 0, 0, fun _ => 7⟩ : FrameWriterState).writtenFrames + 1)
           % UINT64_MOD) :=
  ⟨Or.inl rfl,
    convertToRGBA_abort_paths_and_caller.1 (fun _ => true) (fun _ _ => 3)
      (fun _ => 1) 0 5 VideoFormat.Y800 (fun _ => 7) (Or.inl rfl),
    Or.inr (Or.inl (by decide)),
    convertToRGBA_abort_paths_and_caller.2.1 (fun p => p ≠ 1)
      (fun _ _ => 3) (fun _ => 1) 2 2 (fun _ => 7)
      (Or.inr (Or.inl (by decide))),
    Or.inr (by decide),
    convertToRGBA_abort_paths_and_caller.2.2.2.2.1 (fun _ => true)
      (fun _ _ => 3) (fun p => if p = 1 then 0 else 4) 2 2 (fun _ => 7)
      (Or.inr (by decide)),
    by decide,
    (convertToRGBA_abort_paths_and_caller.2.2.2.2.2
      ⟨0, 0, 0, fun _ => 7⟩ initRegion (fun _ => true) (fun _ _ => 3)
      (fun _ => 1) VideoFormat.Y800 (by decide)).1⟩

/-- C8: for RGBA input at canonical size (1920×1080) with source
stride `width·4`, the normalizer's output equals the input
byte-for-byte over the whole `FRAME_SIZE` buffer; consequently it is
idempotent on RGBA-canonical input — feeding its output back as RGBA
input at canonical size returns the same bytes. -/
theorem convertToRGBA_rgba_canonical_identity
    (pr pr2 : Nat → Bool) (d : Nat → Nat → Nat) (ls ls2 : Nat → Nat)
    (buf buf2 : Nat → Nat)
    (hls : ls 0 = FRAME_WIDTH * 4) (hls2 : ls2 0 = FRAME_WIDTH * 4) :
    (∀ i, i < FRAME_SIZE →
      convertToRGBA pr d ls FRAME_WIDTH FRAME_HEIGHT
        VideoFormat.RGBA buf i = d 0 i) ∧
    (∀ i, i < FRAME_SIZE →
      convertToRGBA pr2
        (fun _ j => convertToRGBA pr d ls FRAME_WIDTH FRAME_HEIGHT
          VideoFormat.RGBA buf j)
        ls2 FRAME_WIDTH FRAME_HEIGHT VideoFormat.RGBA buf2 i
        = convertToRGBA pr d ls FRAME_WIDTH FRAME_HEIGHT
            VideoFormat.RGBA buf i) := by
  constructor
  · intro i hi
    simp [convertToRGBA, hls, FRAME_WIDTH, FRAME_HEIGHT, hi]
  · intro i hi
    simp [convertToRGBA, hls, hls2, FRAME_WIDTH, FRAME_HEIGHT, hi]

/-- Witness for C8 at a concrete source and byte 0. -/
theorem convertToRGBA_rgba_canonical_identity_witness :
    ((fun _ => (7680 : Nat)) 0 = FRAME_WIDTH * 4 ∧
     (fun _ => (7680 : Nat)) 0 = FRAME_WIDTH * 4) ∧
    ((0 : Nat) < FRAME_SIZE ∧
     convertToRGBA (fun _ => true) (fun _ j => j % 251) (fun _ => 7680)
       FRAME_WIDTH FRAME_HEIGHT VideoFormat.RGBA (fun _ => 7) 0
       = (fun _ j => j % 251 : Nat → Nat → Nat) 0 0 ∧
     convertToRGBA (fun _ => true)
       (fun _ j => convertToRGBA (fun _ => true) (fun _ j => j % 251)
         (fun _ => 7680) FRAME_WIDTH FRAME_HEIGHT VideoFormat.RGBA
         (fun _ => 7) j)
       (fun _ => 7680) FRAME_WIDTH FRAME_HEIGHT VideoFormat.RGBA
       (fun _ => 9) 0
       = convertToRGBA (fun _ => true) (fun _ j => j % 251)
           (fun _ => 7680) FRAME_WIDTH FRAME_HEIGHT VideoFormat.RGBA
           (fun _ => 7) 0) :=
  ⟨⟨by decide, by decide⟩,
    by decide,
    (convertToRGBA_rgba_canonical_identity (fun _ => true) (fun _ => true)
      (fun _ j => j % 251) (fun _ => 7680) (fun _ => 7680) (fun _ => 7)
      (fun _ => 9) (by decide) (by decide)).1 0 (by decide),
    (convertToRGBA_rgba_canonical_identity (fun _ => true) (fun _ => true)
      (fun _ j => j % 251) (fun _ => 7680) (fun _ => 7680) (fun _ => 7)
      (fun _ => 9) (by decide) (by decide)).2 0 (by decide)⟩

end StreamLumo
